import Mathlib

/-!
Verification development for the RealtorOS sales-ledger application
(src/app.py). The spreadsheet tables are embedded as Lean lists of
records, monetary amounts as exact rationals, and each Streamlit page's
submit handler as a pure function from application state to application
state, translated directly from the source.
-/

namespace RealtorOS

/-- One row of the Sales_Ledger worksheet, in the column order
`Sale_ID, Client_ID, Client_Name, Phone, Agent, Location, Total_Sale_Price,
Amount_Paid, Balance, Sale_Date, Status, Notes` (src/app.py lines 103-105). -/
structure Sale where
  sale_id : String
  client_id : String
  client_name : String
  phone : String
  agent : String
  location : String
  total_sale_price : ℚ
  amount_paid : ℚ
  balance : ℚ
  sale_date : String
  status : String
  notes : String
deriving DecidableEq

/-- One row of the Transactions worksheet, in the column order
`Transaction_ID, Date, Agent, Location, Client_ID, Amount, Payment_Type,
Phone, Sale_ID, Notes` (src/app.py lines 84-85). -/
structure Transaction where
  transaction_id : String
  date : String
  agent : String
  location : String
  client_id : String
  amount : ℚ
  payment_type : String
  phone : String
  sale_id : String
  notes : String
deriving DecidableEq

/-- The application's persistent state: the Transactions table and the
Sales_Ledger table (header rows omitted; rows in worksheet order). -/
structure AppState where
  transactions : List Transaction
  ledger : List Sale
deriving DecidableEq

/-- The New Sale page submit handler (src/app.py lines 370-399).
Rejects when `client_name` or `phone` is empty or when
`initial_payment > total_price`; otherwise appends one Sale row with
`balance = total_price - initial_payment` and status Fully Paid exactly
when the balance is 0, and, when `initial_payment > 0`, additionally
appends one Transaction row of type New Sale. The generated identifiers
(`SALE-...`, `CLIENT-...`, `TXN-...`) are passed in as parameters. -/
def createSale (s : AppState) (sale_id client_id transaction_id : String)
    (sale_date client_name phone agent location : String)
    (total_price initial_payment : ℚ) (notes : String) : AppState :=
  if client_name = "" ∨ phone = "" then s
  else if initial_payment > total_price then s
  else
    let balance := total_price - initial_payment
    let status := if balance = 0 then "Fully Paid" else "Installment Plan"
    let ledger_row : Sale := ⟨sale_id, client_id, client_name, phone, agent, location,
      total_price, initial_payment, balance, sale_date, status, notes⟩
    if initial_payment > 0 then
      ⟨s.transactions ++ [⟨transaction_id, sale_date, agent, location, client_id,
        initial_payment, "New Sale", phone, sale_id, notes⟩],
       s.ledger ++ [ledger_row]⟩
    else
      ⟨s.transactions, s.ledger ++ [ledger_row]⟩

/-- The Import Old Sale page submit handler (src/app.py lines 457-481),
called ImportHistoricalSale in the design documents. Rejects when
`client_name` or `phone` is empty, when `amount_already_paid > total_price`,
or when `remaining_balance ≤ 0`; otherwise appends one Sale row with status
Installment Plan and a historical-import note, and never appends a
Transaction. -/
def historicalSaleImport (s : AppState) (sale_id client_id : String)
    (original_sale_date client_name phone agent location : String)
    (total_price amount_already_paid : ℚ) (notes : String) : AppState :=
  let remaining_balance := total_price - amount_already_paid
  if client_name = "" ∨ phone = "" then s
  else if amount_already_paid > total_price then s
  else if remaining_balance ≤ 0 then s
  else
    let import_note := if notes ≠ "" then "[HISTORICAL IMPORT] " ++ notes
      else "[HISTORICAL IMPORT] Legacy sale imported into system"
    ⟨s.transactions,
     s.ledger ++ [⟨sale_id, client_id, client_name, phone, agent, location,
       total_price, amount_already_paid, remaining_balance, original_sale_date,
       "Installment Plan", import_note⟩]⟩

/-- A Sale row with its `Amount_Paid`, `Balance`, and `Status` cells
overwritten — exactly the three `update_cell` calls (columns 8, 9, 11) of
the Payment Entry page (src/app.py lines 613-615). -/
def updSaleFields (r : Sale) (new_amount_paid new_balance : ℚ)
    (new_status : String) : Sale :=
  ⟨r.sale_id, r.client_id, r.client_name, r.phone, r.agent, r.location,
   r.total_sale_price, new_amount_paid, new_balance, r.sale_date,
   new_status, r.notes⟩

/-- The Payment Entry page's ledger-update loop (src/app.py lines 607-616):
scan the Sales_Ledger rows from the top, overwrite the `Amount_Paid`,
`Balance`, and `Status` cells of the first row whose `Sale_ID` matches,
and stop (the loop breaks after the first match). -/
def updateFirstSale (l : List Sale) (sid : String)
    (new_amount_paid new_balance : ℚ) (new_status : String) : List Sale :=
  match l with
  | [] => []
  | r :: rs =>
    if r.sale_id = sid then updSaleFields r new_amount_paid new_balance new_status :: rs
    else r :: updateFirstSale rs sid new_amount_paid new_balance new_status

/-- The Payment Entry page submit handler (src/app.py lines 524-616).
The page only offers sales whose status is not Fully Paid (the
`outstanding` filter, line 533) and the selectbox resolves to the first
matching row (`iloc[0]`, line 549); the amount widget enforces
`payment_amount ≤ selected balance` (`max_value`, line 568) and the
handler rejects `payment_amount ≤ 0` (line 587). On acceptance it appends
one Transaction of type Installment copying Agent, Location, Client_ID and
Phone from the selected sale (lines 594-602), then overwrites the
Amount_Paid, Balance and Status cells of the first ledger row whose
Sale_ID matches (lines 604-616). -/
def recordPayment (s : AppState) (transaction_id payment_date : String)
    (sale_id : String) (payment_amount : ℚ) (notes : String) : AppState :=
  match (s.ledger.filter (fun r => r.status ≠ "Fully Paid")).find?
      (fun r => r.sale_id = sale_id) with
  | none => s
  | some sel =>
    if payment_amount ≤ 0 ∨ sel.balance < payment_amount then s
    else
      let trans_row : Transaction := ⟨transaction_id, payment_date, sel.agent,
        sel.location, sel.client_id, payment_amount, "Installment", sel.phone,
        sel.sale_id, notes⟩
      let new_amount_paid := sel.amount_paid + payment_amount
      let new_balance := sel.total_sale_price - new_amount_paid
      let new_status := if new_balance = 0 then "Fully Paid" else "Installment Plan"
      ⟨s.transactions ++ [trans_row],
       updateFirstSale s.ledger sale_id new_amount_paid new_balance new_status⟩

/-- The delete-transaction loop of the Edit/Delete page (src/app.py lines
824-835): delete the first Transactions row whose `Transaction_ID` matches
and stop (the loop breaks after deleting). -/
def deleteFirstTransaction (l : List Transaction) (tid : String) : List Transaction :=
  match l with
  | [] => []
  | r :: rs =>
    if r.transaction_id = tid then rs else r :: deleteFirstTransaction rs tid

/-- The Edit/Delete page's Delete Transaction action (src/app.py lines
806-835): removes the first matching Transactions row; the Sales_Ledger is
not touched. -/
def deleteTransaction (s : AppState) (transaction_id : String) : AppState :=
  ⟨deleteFirstTransaction s.transactions transaction_id, s.ledger⟩

/-- The delete-sale loop of the Edit/Delete page (src/app.py lines
871-881): delete the first Sales_Ledger row whose `Sale_ID` matches and
stop. -/
def deleteFirstSale (l : List Sale) (sid : String) : List Sale :=
  match l with
  | [] => []
  | r :: rs => if r.sale_id = sid then rs else r :: deleteFirstSale rs sid

/-- The Edit/Delete page's Delete Sale action (src/app.py lines 840-881):
removes the first matching Sales_Ledger row; the Transactions table is not
touched. -/
def deleteSale (s : AppState) (sale_id : String) : AppState :=
  ⟨s.transactions, deleteFirstSale s.ledger sale_id⟩

/-- The view of one Transactions row used by `calculate_suggested_targets`:
its parsed `Date` (as a day number) and numeric `Amount`. -/
structure TxnRow where
  date : Int
  amount : ℚ
deriving DecidableEq

/-- The result record of `calculate_suggested_targets`. -/
structure SuggestedTargets where
  week : ℚ
  month : ℚ
  quarter : ℚ
  year : ℚ
deriving DecidableEq

/-- `calculate_suggested_targets` (src/app.py lines 208-226): fixed
defaults on an empty transaction set; otherwise `avg_monthly` is the sum
of the transactions of the last 90 days divided by 3, falling back to the
sum of all transactions divided by 3 when none is recent, and the four
suggestions are `avg_monthly / 4`, `avg_monthly * 1.1`,
`avg_monthly * 3 * 1.1`, `avg_monthly * 12 * 1.1`. Dates are day numbers
and `now` is the current day, so `now - 90` is `three_months_ago`. -/
def calculate_suggested_targets (transactions_df : List TxnRow) (now : Int) :
    SuggestedTargets :=
  if transactions_df.isEmpty then ⟨500000, 2000000, 6000000, 25000000⟩
  else
    let three_months_ago := now - 90
    let recent_data := transactions_df.filter (fun t => three_months_ago ≤ t.date)
    let avg_monthly : ℚ :=
      if recent_data.isEmpty then
        if 0 < transactions_df.length then
          ((transactions_df.map (fun t => t.amount)).sum) / 3
        else 2000000
      else ((recent_data.map (fun t => t.amount)).sum) / 3
    ⟨avg_monthly / 4, avg_monthly * (11 / 10), avg_monthly * 3 * (11 / 10),
     avg_monthly * 12 * (11 / 10)⟩

/-- A raw Transactions row as read from the worksheet before
`load_transactions` coerces it: the `Amount` cell carries the result of
numeric parsing (`pd.to_numeric(..., errors='coerce')`), `none` when the
cell is not parseable. -/
structure RawTransactionRow where
  transaction_id : String
  date : String
  agent : String
  location : String
  client_id : String
  amount : Option ℚ
  payment_type : String
  phone : String
  sale_id : String
  notes : String

/-- A raw Sales_Ledger row before `load_sales_ledger` coerces its three
numeric cells. -/
structure RawSaleRow where
  sale_id : String
  client_id : String
  client_name : String
  phone : String
  agent : String
  location : String
  total_sale_price : Option ℚ
  amount_paid : Option ℚ
  balance : Option ℚ
  sale_date : String
  status : String
  notes : String

/-- One row of the Targets worksheet after loading. -/
structure Target where
  year : String
  period_type : String
  period_number : String
  target_amount : ℚ
  last_updated : String
  notes : String

/-- A raw Targets row before `load_targets` coerces `Target_Amount`. -/
structure RawTargetRow where
  year : String
  period_type : String
  period_number : String
  target_amount : Option ℚ
  last_updated : String
  notes : String

/-- Row coercion of `load_transactions` (src/app.py lines 133-134):
`pd.to_numeric(df['Amount'], errors='coerce').fillna(0)` — an unparseable
Amount cell becomes 0. -/
def loadTransactionRow (r : RawTransactionRow) : Transaction :=
  ⟨r.transaction_id, r.date, r.agent, r.location, r.client_id,
   r.amount.getD 0, r.payment_type, r.phone, r.sale_id, r.notes⟩

/-- `load_transactions` (src/app.py lines 116-142) applied to the data
rows of the Transactions worksheet. -/
def load_transactions (raw : List RawTransactionRow) : List Transaction :=
  raw.map loadTransactionRow

/-- Row coercion of `load_sales_ledger` (src/app.py lines 162-167):
`pd.to_numeric(..., errors='coerce').fillna(0)` on `Total_Sale_Price`,
`Amount_Paid` and `Balance`. -/
def loadSaleRow (r : RawSaleRow) : Sale :=
  ⟨r.sale_id, r.client_id, r.client_name, r.phone, r.agent, r.location,
   r.total_sale_price.getD 0, r.amount_paid.getD 0, r.balance.getD 0,
   r.sale_date, r.status, r.notes⟩

/-- `load_sales_ledger` (src/app.py lines 144-177) applied to the data
rows of the Sales_Ledger worksheet. -/
def load_sales_ledger (raw : List RawSaleRow) : List Sale :=
  raw.map loadSaleRow

/-- Row coercion of `load_targets` (src/app.py lines 192-193):
`pd.to_numeric(df['Target_Amount'], errors='coerce').fillna(0)`. -/
def loadTargetRow (r : RawTargetRow) : Target :=
  ⟨r.year, r.period_type, r.period_number, r.target_amount.getD 0,
   r.last_updated, r.notes⟩

/-- `load_targets` (src/app.py lines 179-199) applied to the data rows of
the Targets worksheet. -/
def load_targets (raw : List RawTargetRow) : List Target :=
  raw.map loadTargetRow

/-- The per-row ledger invariant stated by the design documents: the
balance is the derived difference, never negative, the status is one of
the two enum values, and it is Fully Paid exactly when the balance is 0. -/
def SaleInv (r : Sale) : Prop :=
  r.balance = r.total_sale_price - r.amount_paid ∧
  0 ≤ r.balance ∧
  (r.status = "Fully Paid" ↔ r.balance = 0) ∧
  (r.status = "Fully Paid" ∨ r.status = "Installment Plan")

instance (r : Sale) : Decidable (SaleInv r) := by
  unfold SaleInv; infer_instance

/-- The ledger invariant over the whole state. -/
def LedgerInv (s : AppState) : Prop := ∀ r ∈ s.ledger, SaleInv r

instance (s : AppState) : Decidable (LedgerInv s) := by
  unfold LedgerInv; infer_instance

/-- A payment sequence is admissible for a starting balance when every
payment is positive and at most the running balance. -/
def validSeq : ℚ → List ℚ → Prop
  | _, [] => True
  | b, p :: ps => 0 < p ∧ p ≤ b ∧ validSeq (b - p) ps

instance instDecidableValidSeq : ∀ (b : ℚ) (ps : List ℚ), Decidable (validSeq b ps)
  | _, [] => isTrue trivial
  | b, p :: ps =>
    haveI : Decidable (validSeq (b - p) ps) := instDecidableValidSeq (b - p) ps
    inferInstanceAs (Decidable (0 < p ∧ p ≤ b ∧ validSeq (b - p) ps))

/-- Replay a sequence of payments against one sale, with fixed generated
transaction ids, dates and notes (those fields do not influence the
ledger arithmetic). -/
def applyPayments (s : AppState) (sid : String) (ps : List ℚ) : AppState :=
  ps.foldl (fun st p => recordPayment st "TXN" "DATE" sid p "") s

/-! ## Helper lemmas about scans over worksheet rows -/

lemma mem_of_filter_sid (l : List Sale) (sid : String) (r : Sale)
    (h : l.filter (fun x => x.sale_id = sid) = [r]) :
    ∀ x ∈ l, x.sale_id = sid → x = r := by
  intro x hx hsx
  have hmem : x ∈ l.filter (fun x => x.sale_id = sid) := by
    rw [List.mem_filter]
    exact ⟨hx, by simpa using hsx⟩
  rw [h] at hmem
  simpa using hmem

lemma filter_sid_singleton_decomp (l : List Sale) (sid : String) (r : Sale)
    (h : l.filter (fun x => x.sale_id = sid) = [r]) :
    ∃ l1 l2, l = l1 ++ r :: l2 ∧ (∀ x ∈ l1, x.sale_id ≠ sid) ∧
      (∀ x ∈ l2, x.sale_id ≠ sid) ∧ r.sale_id = sid := by
  induction l with
  | nil => simp at h
  | cons a t ih =>
    by_cases ha : a.sale_id = sid
    · rw [List.filter_cons_of_pos (by simpa using ha)] at h
      injection h with h1 h2
      subst h1
      refine ⟨[], t, rfl, by simp, ?_, ha⟩
      intro x hx
      have := List.filter_eq_nil_iff.mp h2 x hx
      simpa using this
    · rw [List.filter_cons_of_neg (by simpa using ha)] at h
      obtain ⟨l1, l2, rfl, h1, h2, hr⟩ := ih h
      refine ⟨a :: l1, l2, rfl, ?_, h2, hr⟩
      intro x hx
      rcases List.mem_cons.mp hx with rfl | hx2
      · exact ha
      · exact h1 x hx2

lemma filter_sid_of_decomp (l1 l2 : List Sale) (r : Sale) (sid : String)
    (h1 : ∀ x ∈ l1, x.sale_id ≠ sid) (h2 : ∀ x ∈ l2, x.sale_id ≠ sid)
    (hr : r.sale_id = sid) :
    (l1 ++ r :: l2).filter (fun x => x.sale_id = sid) = [r] := by
  have e1 : l1.filter (fun x => x.sale_id = sid) = [] :=
    List.filter_eq_nil_iff.mpr (fun a ha => by simpa using h1 a ha)
  have e2 : l2.filter (fun x => x.sale_id = sid) = [] :=
    List.filter_eq_nil_iff.mpr (fun a ha => by simpa using h2 a ha)
  rw [List.filter_append, e1, List.filter_cons_of_pos (by simpa using hr), e2]
  rfl

lemma updateFirstSale_decomp (l1 l2 : List Sale) (r : Sale) (sid : String)
    (A Bv : ℚ) (S : String)
    (h1 : ∀ x ∈ l1, x.sale_id ≠ sid) (hr : r.sale_id = sid) :
    updateFirstSale (l1 ++ r :: l2) sid A Bv S = l1 ++ updSaleFields r A Bv S :: l2 := by
  induction l1 with
  | nil => simp [updateFirstSale, hr]
  | cons a t ih =>
    have ha : a.sale_id ≠ sid := h1 a (List.mem_cons_self a t)
    simp only [List.cons_append, updateFirstSale, if_neg ha, List.append_eq]
    rw [ih (fun x hx => h1 x (List.mem_cons_of_mem a hx))]

lemma deleteFirstSale_decomp (l1 l2 : List Sale) (r : Sale) (sid : String)
    (h1 : ∀ x ∈ l1, x.sale_id ≠ sid) (hr : r.sale_id = sid) :
    deleteFirstSale (l1 ++ r :: l2) sid = l1 ++ l2 := by
  induction l1 with
  | nil => simp [deleteFirstSale, hr]
  | cons a t ih =>
    have ha : a.sale_id ≠ sid := h1 a (List.mem_cons_self a t)
    simp only [List.cons_append, deleteFirstSale, if_neg ha, List.append_eq]
    rw [ih (fun x hx => h1 x (List.mem_cons_of_mem a hx))]

lemma deleteFirstTransaction_decomp (l1 l2 : List Transaction) (t : Transaction)
    (tid : String) (h1 : ∀ x ∈ l1, x.transaction_id ≠ tid)
    (ht : t.transaction_id = tid) :
    deleteFirstTransaction (l1 ++ t :: l2) tid = l1 ++ l2 := by
  induction l1 with
  | nil => simp [deleteFirstTransaction, ht]
  | cons a l ih =>
    have ha : a.transaction_id ≠ tid := h1 a (List.mem_cons_self a l)
    simp only [List.cons_append, deleteFirstTransaction, if_neg ha, List.append_eq]
    rw [ih (fun x hx => h1 x (List.mem_cons_of_mem a hx))]

lemma find?_outstanding (l : List Sale) (sid : String) (r : Sale)
    (hs : r.status ≠ "Fully Paid") :
    l.filter (fun x => x.sale_id = sid) = [r] →
    (l.filter (fun x => x.status ≠ "Fully Paid")).find? (fun x => x.sale_id = sid)
      = some r := by
  induction l with
  | nil => intro h; simp at h
  | cons a t ih =>
    intro h
    by_cases ha : a.sale_id = sid
    · rw [List.filter_cons_of_pos (by simpa using ha)] at h
      injection h with h1 h2
      subst h1
      rw [List.filter_cons_of_pos (by simpa using hs)]
      exact List.find?_cons_of_pos _ (by simpa using ha)
    · rw [List.filter_cons_of_neg (by simpa using ha)] at h
      by_cases hst : a.status = "Fully Paid"
      · rw [List.filter_cons_of_neg (by simp [hst])]
        exact ih h
      · rw [List.filter_cons_of_pos (by simpa using hst)]
        rw [List.find?_cons_of_neg _ (by simpa using ha)]
        exact ih h

/-! ## Characterisations of the accepted and rejected operation paths -/

lemma recordPayment_accepted (s : AppState) (tid d sid : String) (p : ℚ)
    (n : String) (r : Sale)
    (huq : s.ledger.filter (fun x => x.sale_id = sid) = [r])
    (hs : r.status ≠ "Fully Paid") (hp : 0 < p) (hpb : p ≤ r.balance) :
    recordPayment s tid d sid p n =
      ⟨s.transactions ++ [⟨tid, d, r.agent, r.location, r.client_id, p,
          "Installment", r.phone, r.sale_id, n⟩],
       updateFirstSale s.ledger sid (r.amount_paid + p)
         (r.total_sale_price - (r.amount_paid + p))
         (if r.total_sale_price - (r.amount_paid + p) = 0 then "Fully Paid"
          else "Installment Plan")⟩ := by
  have hfind := find?_outstanding s.ledger sid r hs huq
  simp only [recordPayment, hfind]
  rw [if_neg (by push_neg; exact ⟨hp, hpb⟩)]

lemma recordPayment_rejected (s : AppState) (tid d sid : String) (q : ℚ)
    (n : String) (r : Sale)
    (huq : s.ledger.filter (fun x => x.sale_id = sid) = [r])
    (hq : q ≤ 0 ∨ r.balance < q) :
    recordPayment s tid d sid q n = s := by
  unfold recordPayment
  cases hfind : (s.ledger.filter (fun x => x.status ≠ "Fully Paid")).find?
      (fun x => x.sale_id = sid) with
  | none => rfl
  | some sel =>
    have hsel : sel = r := by
      have h1 := List.find?_some hfind
      have h2 := List.mem_of_find?_eq_some hfind
      have h3 : sel ∈ s.ledger := (List.mem_filter.mp h2).1
      exact mem_of_filter_sid s.ledger sid r huq sel h3 (by simpa using h1)
    subst hsel
    simp only [if_pos hq]

lemma createSale_accepted (s : AppState) (sid cid tid sd cn ph ag loc : String)
    (tp ip : ℚ) (nt : String) (hcn : cn ≠ "") (hph : ph ≠ "") (hle : ip ≤ tp) :
    createSale s sid cid tid sd cn ph ag loc tp ip nt =
      if ip > 0 then
        ⟨s.transactions ++ [⟨tid, sd, ag, loc, cid, ip, "New Sale", ph, sid, nt⟩],
         s.ledger ++ [⟨sid, cid, cn, ph, ag, loc, tp, ip, tp - ip, sd,
           (if tp - ip = 0 then "Fully Paid" else "Installment Plan"), nt⟩]⟩
      else
        ⟨s.transactions,
         s.ledger ++ [⟨sid, cid, cn, ph, ag, loc, tp, ip, tp - ip, sd,
           (if tp - ip = 0 then "Fully Paid" else "Installment Plan"), nt⟩]⟩ := by
  unfold createSale
  rw [if_neg (by push_neg; exact ⟨hcn, hph⟩), if_neg (not_lt.mpr hle)]

lemma cst_of_recent (df : List TxnRow) (now : Int) (hne : df ≠ [])
    (hrec : df.filter (fun t => now - 90 ≤ t.date) ≠ []) :
    calculate_suggested_targets df now =
      ⟨((df.filter (fun t => now - 90 ≤ t.date)).map (fun t => t.amount)).sum / 3 / 4,
       ((df.filter (fun t => now - 90 ≤ t.date)).map (fun t => t.amount)).sum / 3 * (11 / 10),
       ((df.filter (fun t => now - 90 ≤ t.date)).map (fun t => t.amount)).sum / 3 * 3 * (11 / 10),
       ((df.filter (fun t => now - 90 ≤ t.date)).map (fun t => t.amount)).sum / 3 * 12 * (11 / 10)⟩ := by
  simp only [calculate_suggested_targets]
  rw [if_neg (by simpa [List.isEmpty_iff] using hne),
      if_neg (by simpa [List.isEmpty_iff] using hrec)]

lemma cst_of_no_recent (df : List TxnRow) (now : Int) (hne : df ≠ [])
    (hrec : df.filter (fun t => now - 90 ≤ t.date) = []) :
    calculate_suggested_targets df now =
      ⟨(df.map (fun t => t.amount)).sum / 3 / 4,
       (df.map (fun t => t.amount)).sum / 3 * (11 / 10),
       (df.map (fun t => t.amount)).sum / 3 * 3 * (11 / 10),
       (df.map (fun t => t.amount)).sum / 3 * 12 * (11 / 10)⟩ := by
  simp only [calculate_suggested_targets]
  rw [if_neg (by simpa [List.isEmpty_iff] using hne),
      if_pos (by simpa [List.isEmpty_iff] using hrec),
      if_pos (List.length_pos.mpr hne)]

lemma sum_getD_eq_sum_filterMap (l : List (Option ℚ)) :
    (l.map (fun o => o.getD 0)).sum = (l.filterMap id).sum := by
  induction l with
  | nil => rfl
  | cons a t ih => cases a <;> simp [ih]

/-! ## Claim theorems -/

/-- C3: for every valid CreateSale input (client_name and phone non-empty,
0 ≤ initial_payment ≤ total_price), the appended Sale row has
balance = total_price - initial_payment and status Fully Paid exactly when
that balance is 0, otherwise status Installment Plan. -/
theorem createSale_balance_status (s : AppState)
    (sid cid tid sd cn ph ag loc : String) (total_price initial_payment : ℚ)
    (nt : String) (hcn : cn ≠ "") (hph : ph ≠ "")
    (_h0 : 0 ≤ initial_payment) (h1 : initial_payment ≤ total_price) :
    ∃ row : Sale,
      (createSale s sid cid tid sd cn ph ag loc total_price initial_payment nt).ledger
        = s.ledger ++ [row] ∧
      row.balance = total_price - initial_payment ∧
      row.total_sale_price = total_price ∧
      row.amount_paid = initial_payment ∧
      (row.status = "Fully Paid" ↔ row.balance = 0) ∧
      (row.status = "Fully Paid" ∨ row.status = "Installment Plan") := by
  refine ⟨⟨sid, cid, cn, ph, ag, loc, total_price, initial_payment,
    total_price - initial_payment, sd,
    if total_price - initial_payment = 0 then "Fully Paid" else "Installment Plan",
    nt⟩, ?_, rfl, rfl, rfl, ?_, ?_⟩
  · rw [createSale_accepted s sid cid tid sd cn ph ag loc total_price initial_payment
      nt hcn hph h1]
    by_cases hip : initial_payment > 0
    · rw [if_pos hip]
    · rw [if_neg hip]
  · by_cases h : total_price - initial_payment = 0 <;>
      simp [h, show ("Installment Plan" : String) ≠ "Fully Paid" by decide]
  · by_cases h : total_price - initial_payment = 0 <;> simp [h]

/-- C3 witness: a concrete valid CreateSale run. -/
theorem createSale_balance_status_witness :
    ∃ row : Sale,
      (createSale ⟨[], []⟩ "SALE-1" "CLIENT-1" "TXN-1" "2025-01-01" "Jane" "0712"
        "Manager" "Malaa" 2500000 500000 "").ledger = ([] : List Sale) ++ [row] ∧
      row.balance = 2500000 - 500000 ∧
      row.total_sale_price = 2500000 ∧
      row.amount_paid = 500000 ∧
      (row.status = "Fully Paid" ↔ row.balance = 0) ∧
      (row.status = "Fully Paid" ∨ row.status = "Installment Plan") :=
  createSale_balance_status ⟨[], []⟩ "SALE-1" "CLIENT-1" "TXN-1" "2025-01-01" "Jane"
    "0712" "Manager" "Malaa" 2500000 500000 "" (by decide) (by decide)
    (by norm_num) (by norm_num)

/-- C4: for every valid CreateSale input, initial_payment = 0 creates no
Transaction, and initial_payment > 0 creates exactly one Transaction of
payment type New Sale whose amount equals initial_payment and whose
Sale_ID references the newly generated sale id. -/
theorem createSale_transaction_emission (s : AppState)
    (sid cid tid sd cn ph ag loc : String) (tp ip : ℚ) (nt : String)
    (hcn : cn ≠ "") (hph : ph ≠ "") (_h0 : 0 ≤ ip) (hle : ip ≤ tp) :
    (ip = 0 →
      (createSale s sid cid tid sd cn ph ag loc tp ip nt).transactions
        = s.transactions) ∧
    (0 < ip → ∃ t : Transaction,
      (createSale s sid cid tid sd cn ph ag loc tp ip nt).transactions
        = s.transactions ++ [t] ∧
      t.payment_type = "New Sale" ∧ t.amount = ip ∧ t.sale_id = sid ∧
      ∃ row : Sale,
        (createSale s sid cid tid sd cn ph ag loc tp ip nt).ledger
          = s.ledger ++ [row] ∧ row.sale_id = sid) := by
  rw [createSale_accepted s sid cid tid sd cn ph ag loc tp ip nt hcn hph hle]
  constructor
  · intro hz
    rw [if_neg (by rw [hz]; exact lt_irrefl 0)]
  · intro hpos
    rw [if_pos hpos]
    exact ⟨_, rfl, rfl, rfl, rfl, _, rfl, rfl⟩

/-- C4 witness: the two concrete cases, initial payment zero and positive. -/
theorem createSale_transaction_emission_witness :
    ((createSale ⟨[], []⟩ "SALE-1" "CLIENT-1" "TXN-1" "2025-01-01" "Jane" "0712"
        "Manager" "Malaa" 2500000 0 "").transactions = ([] : List Transaction)) ∧
    (∃ t : Transaction,
      (createSale ⟨[], []⟩ "SALE-2" "CLIENT-2" "TXN-2" "2025-01-02" "John" "0713"
        "Manager" "Joska" 2500000 500000 "").transactions
        = ([] : List Transaction) ++ [t] ∧
      t.payment_type = "New Sale" ∧ t.amount = 500000 ∧ t.sale_id = "SALE-2" ∧
      ∃ row : Sale,
        (createSale ⟨[], []⟩ "SALE-2" "CLIENT-2" "TXN-2" "2025-01-02" "John" "0713"
          "Manager" "Joska" 2500000 500000 "").ledger
          = ([] : List Sale) ++ [row] ∧ row.sale_id = "SALE-2") :=
  ⟨(createSale_transaction_emission ⟨[], []⟩ "SALE-1" "CLIENT-1" "TXN-1" "2025-01-01"
      "Jane" "0712" "Manager" "Malaa" 2500000 0 "" (by decide) (by decide)
      (by norm_num) (by norm_num)).1 rfl,
   (createSale_transaction_emission ⟨[], []⟩ "SALE-2" "CLIENT-2" "TXN-2" "2025-01-02"
      "John" "0713" "Manager" "Joska" 2500000 500000 "" (by decide) (by decide)
      (by norm_num) (by norm_num)).2 (by norm_num)⟩

/-- C5: ImportHistoricalSale never creates a Transaction; any input with
amount_already_paid ≥ total_price is rejected with no state change; every
accepted import appends one Sale row with status Installment Plan and
balance = total_price - amount_already_paid. -/
theorem historicalImport_spec (s : AppState) (sid cid osd cn ph ag loc : String)
    (tp paid : ℚ) (nt : String) :
    ((historicalSaleImport s sid cid osd cn ph ag loc tp paid nt).transactions
       = s.transactions) ∧
    (tp ≤ paid → historicalSaleImport s sid cid osd cn ph ag loc tp paid nt = s) ∧
    (cn ≠ "" → ph ≠ "" → paid < tp →
      ∃ row : Sale,
        (historicalSaleImport s sid cid osd cn ph ag loc tp paid nt).ledger
          = s.ledger ++ [row] ∧
        row.status = "Installment Plan" ∧ row.balance = tp - paid) := by
  refine ⟨?_, ?_, ?_⟩
  · simp only [historicalSaleImport]
    by_cases h1 : cn = "" ∨ ph = ""
    · rw [if_pos h1]
    · rw [if_neg h1]
      by_cases h2 : paid > tp
      · rw [if_pos h2]
      · rw [if_neg h2]
        by_cases h3 : tp - paid ≤ 0
        · rw [if_pos h3]
        · rw [if_neg h3]
  · intro hle
    simp only [historicalSaleImport]
    by_cases h1 : cn = "" ∨ ph = ""
    · rw [if_pos h1]
    · rw [if_neg h1]
      by_cases h2 : paid > tp
      · rw [if_pos h2]
      · rw [if_neg h2, if_pos (by linarith)]
  · intro hcn hph hlt
    simp only [historicalSaleImport]
    rw [if_neg (by push_neg; exact ⟨hcn, hph⟩), if_neg (not_lt.mpr hlt.le),
        if_neg (by intro h; linarith)]
    exact ⟨_, rfl, rfl, rfl⟩

/-- C5 witness: a rejected fully-paid import and an accepted one. -/
theorem historicalImport_spec_witness :
    ((historicalSaleImport ⟨[], []⟩ "LEGACY-1" "CLIENT-1" "2024-06-15" "Jane" "0712"
        "Manager" "Malaa" 3000000 3000000 "").transactions = ([] : List Transaction)) ∧
    (historicalSaleImport ⟨[], []⟩ "LEGACY-1" "CLIENT-1" "2024-06-15" "Jane" "0712"
        "Manager" "Malaa" 3000000 3000000 "" = ⟨[], []⟩) ∧
    (∃ row : Sale,
      (historicalSaleImport ⟨[], []⟩ "LEGACY-2" "CLIENT-2" "2024-06-15" "Jane" "0712"
        "Manager" "Malaa" 3000000 1600000 "").ledger = ([] : List Sale) ++ [row] ∧
      row.status = "Installment Plan" ∧ row.balance = 3000000 - 1600000) :=
  ⟨(historicalImport_spec ⟨[], []⟩ "LEGACY-1" "CLIENT-1" "2024-06-15" "Jane" "0712"
      "Manager" "Malaa" 3000000 3000000 "").1,
   (historicalImport_spec ⟨[], []⟩ "LEGACY-1" "CLIENT-1" "2024-06-15" "Jane" "0712"
      "Manager" "Malaa" 3000000 3000000 "").2.1 (by norm_num),
   (historicalImport_spec ⟨[], []⟩ "LEGACY-2" "CLIENT-2" "2024-06-15" "Jane" "0712"
      "Manager" "Malaa" 3000000 1600000 "").2.2 (by decide) (by decide) (by norm_num)⟩

/-- C8: DeleteTransaction leaves every Sales_Ledger row unchanged and
DeleteSale leaves every Transactions row unchanged — each deletion touches
only its own table and never cascades to the other. -/
theorem delete_ops_frame (s : AppState) (tid sid : String) :
    (deleteTransaction s tid).ledger = s.ledger ∧
    (deleteSale s sid).transactions = s.transactions :=
  ⟨rfl, rfl⟩

/-- C7: SuggestTargets returns the fixed defaults on an empty transaction
set; on a non-empty set whose last-90-days transactions sum to X > 0 it
returns Week = X/12, Month = X/3*1.1, Quarter = X*1.1, Year = X*4.4; and
on a non-empty set with no transaction in the last 90 days the same four
formulas are applied with X the sum of all transactions. -/
theorem calculate_suggested_targets_spec (df : List TxnRow) (now : Int) (X : ℚ) :
    (calculate_suggested_targets [] now = ⟨500000, 2000000, 6000000, 25000000⟩) ∧
    (df ≠ [] →
      ((df.filter (fun t => now - 90 ≤ t.date)).map (fun t => t.amount)).sum = X →
      0 < X →
      calculate_suggested_targets df now
        = ⟨X / 12, X / 3 * (11 / 10), X * (11 / 10), X * (22 / 5)⟩) ∧
    (df ≠ [] → df.filter (fun t => now - 90 ≤ t.date) = [] →
      (df.map (fun t => t.amount)).sum = X →
      calculate_suggested_targets df now
        = ⟨X / 12, X / 3 * (11 / 10), X * (11 / 10), X * (22 / 5)⟩) := by
  refine ⟨rfl, ?_, ?_⟩
  · intro hne hsum hX
    have hrec : df.filter (fun t => now - 90 ≤ t.date) ≠ [] := by
      intro hemp
      rw [hemp] at hsum
      simp at hsum
      linarith
    rw [cst_of_recent df now hne hrec, hsum]
    simp only [SuggestedTargets.mk.injEq]
    refine ⟨by ring, trivial, by ring, by ring⟩
  · intro hne hrec hsum
    rw [cst_of_no_recent df now hne hrec, hsum]
    simp only [SuggestedTargets.mk.injEq]
    refine ⟨by ring, trivial, by ring, by ring⟩

/-- C7 witness: the worked example of the design documents — last-90-day
transactions summing to 9,000,000 yield Week 750,000, Month 3,300,000,
Quarter 9,900,000, Year 39,600,000; plus the no-recent fallback. -/
theorem calculate_suggested_targets_spec_witness :
    (calculate_suggested_targets [⟨0, 9000000⟩] 0
      = ⟨9000000 / 12, 9000000 / 3 * (11 / 10), 9000000 * (11 / 10),
         9000000 * (22 / 5)⟩) ∧
    (calculate_suggested_targets [⟨-400, 600⟩] 0
      = ⟨600 / 12, 600 / 3 * (11 / 10), 600 * (11 / 10), 600 * (22 / 5)⟩) :=
  ⟨(calculate_suggested_targets_spec [⟨0, 9000000⟩] 0 9000000).2.1 (by decide)
      (by norm_num [List.filter]) (by norm_num),
   (calculate_suggested_targets_spec [⟨-400, 600⟩] 0 600).2.2 (by decide)
      (by norm_num [List.filter]) (by norm_num [List.filter])⟩

/-- C10: each loader substitutes 0 for a numeric cell that does not parse
(`pd.to_numeric(..., errors='coerce').fillna(0)`), so rows with malformed
Amount, Total_Sale_Price, Amount_Paid, Balance or Target_Amount cells
contribute 0 to the revenue, balance and target aggregates. -/
theorem loaders_fill_zero :
    (∀ r : RawTransactionRow, r.amount = none → (loadTransactionRow r).amount = 0) ∧
    (∀ r : RawSaleRow,
      (r.total_sale_price = none → (loadSaleRow r).total_sale_price = 0) ∧
      (r.amount_paid = none → (loadSaleRow r).amount_paid = 0) ∧
      (r.balance = none → (loadSaleRow r).balance = 0)) ∧
    (∀ r : RawTargetRow, r.target_amount = none → (loadTargetRow r).target_amount = 0) ∧
    (∀ raw : List RawTransactionRow,
      ((load_transactions raw).map (fun t => t.amount)).sum
        = (raw.filterMap (fun r => r.amount)).sum) ∧
    (∀ raw : List RawSaleRow,
      ((load_sales_ledger raw).map (fun t => t.balance)).sum
        = (raw.filterMap (fun r => r.balance)).sum) ∧
    (∀ raw : List RawTargetRow,
      ((load_targets raw).map (fun t => t.target_amount)).sum
        = (raw.filterMap (fun r => r.target_amount)).sum) := by
  refine ⟨?_, ?_, ?_, ?_, ?_, ?_⟩
  · intro r h; simp [loadTransactionRow, h]
  · intro r
    exact ⟨fun h => by simp [loadSaleRow, h], fun h => by simp [loadSaleRow, h],
      fun h => by simp [loadSaleRow, h]⟩
  · intro r h; simp [loadTargetRow, h]
  · intro raw
    have h1 : (load_transactions raw).map (fun t => t.amount)
        = (raw.map (fun r => r.amount)).map (fun o => o.getD 0) := by
      simp only [load_transactions, List.map_map]; rfl
    have h2 : (raw.map (fun r => r.amount)).filterMap id
        = raw.filterMap (fun r => r.amount) := by
      rw [List.filterMap_map]; rfl
    rw [h1, sum_getD_eq_sum_filterMap, h2]
  · intro raw
    have h1 : (load_sales_ledger raw).map (fun t => t.balance)
        = (raw.map (fun r => r.balance)).map (fun o => o.getD 0) := by
      simp only [load_sales_ledger, List.map_map]; rfl
    have h2 : (raw.map (fun r => r.balance)).filterMap id
        = raw.filterMap (fun r => r.balance) := by
      rw [List.filterMap_map]; rfl
    rw [h1, sum_getD_eq_sum_filterMap, h2]
  · intro raw
    have h1 : (load_targets raw).map (fun t => t.target_amount)
        = (raw.map (fun r => r.target_amount)).map (fun o => o.getD 0) := by
      simp only [load_targets, List.map_map]; rfl
    have h2 : (raw.map (fun r => r.target_amount)).filterMap id
        = raw.filterMap (fun r => r.target_amount) := by
      rw [List.filterMap_map]; rfl
    rw [h1, sum_getD_eq_sum_filterMap, h2]

/-- C10 witness: concrete rows with unparseable numeric cells load as 0. -/
theorem loaders_fill_zero_witness :
    (loadTransactionRow ⟨"T1", "d", "a", "l", "c", none, "p", "ph", "s", "n"⟩).amount
      = 0 ∧
    (loadSaleRow ⟨"S1", "c", "cn", "ph", "a", "l", none, none, none, "d", "st",
      "n"⟩).balance = 0 ∧
    (loadTargetRow ⟨"2025", "Week", "1", none, "d", "n"⟩).target_amount = 0 :=
  ⟨loaders_fill_zero.1 ⟨"T1", "d", "a", "l", "c", none, "p", "ph", "s", "n"⟩ rfl,
   (loaders_fill_zero.2.1 ⟨"S1", "c", "cn", "ph", "a", "l", none, none, none, "d",
      "st", "n"⟩).2.2 rfl,
   loaders_fill_zero.2.2.1 ⟨"2025", "Week", "1", none, "d", "n"⟩ rfl⟩

lemma find?_outstanding_none (l : List Sale) (sid : String)
    (h : l.filter (fun x => x.sale_id = sid) = []) :
    (l.filter (fun x => x.status ≠ "Fully Paid")).find? (fun x => x.sale_id = sid)
      = none := by
  cases hfind : (l.filter (fun x => x.status ≠ "Fully Paid")).find?
      (fun x => x.sale_id = sid) with
  | none => rfl
  | some sel =>
    have h1 := List.find?_some hfind
    have h2 : sel ∈ l := (List.mem_filter.mp (List.mem_of_find?_eq_some hfind)).1
    have hmem : sel ∈ l.filter (fun x => x.sale_id = sid) :=
      List.mem_filter.mpr ⟨h2, h1⟩
    rw [h] at hmem
    simp at hmem

lemma recordPayment_no_match (s : AppState) (tid d sid n : String) (q : ℚ)
    (h : s.ledger.filter (fun x => x.sale_id = sid) = []) :
    recordPayment s tid d sid q n = s := by
  unfold recordPayment
  rw [find?_outstanding_none s.ledger sid h]

lemma find?_outstanding_of_fullyPaid (l : List Sale) (sid : String) (r : Sale)
    (huq : l.filter (fun x => x.sale_id = sid) = [r])
    (hFP : r.status = "Fully Paid") :
    (l.filter (fun x => x.status ≠ "Fully Paid")).find? (fun x => x.sale_id = sid)
      = none := by
  cases hfind : (l.filter (fun x => x.status ≠ "Fully Paid")).find?
      (fun x => x.sale_id = sid) with
  | none => rfl
  | some sel =>
    have h1 := List.find?_some hfind
    have hmem := List.mem_of_find?_eq_some hfind
    have h2 : sel ∈ l := (List.mem_filter.mp hmem).1
    have h3 : sel.status ≠ "Fully Paid" := by
      simpa using (List.mem_filter.mp hmem).2
    have hsel : sel = r := mem_of_filter_sid l sid r huq sel h2 (by simpa using h1)
    exact absurd (hsel ▸ hFP) h3

lemma recordPayment_of_fullyPaid (s : AppState) (tid d sid n : String) (q : ℚ)
    (r : Sale) (huq : s.ledger.filter (fun x => x.sale_id = sid) = [r])
    (hFP : r.status = "Fully Paid") :
    recordPayment s tid d sid q n = s := by
  unfold recordPayment
  rw [find?_outstanding_of_fullyPaid s.ledger sid r huq hFP]

/-- The full effect of one accepted RecordPayment on a ledger whose unique
row matching the sale id satisfies the invariant. -/
lemma recordPayment_step (s : AppState) (tid d sid n : String) (p : ℚ) (r : Sale)
    (huq : s.ledger.filter (fun x => x.sale_id = sid) = [r])
    (hinv : SaleInv r) (hp : 0 < p) (hpb : p ≤ r.balance) :
    ∃ l1 l2,
      s.ledger = l1 ++ r :: l2 ∧
      (∀ x ∈ l1, x.sale_id ≠ sid) ∧ (∀ x ∈ l2, x.sale_id ≠ sid) ∧
      r.sale_id = sid ∧
      (recordPayment s tid d sid p n).transactions
        = s.transactions ++ [⟨tid, d, r.agent, r.location, r.client_id, p,
            "Installment", r.phone, r.sale_id, n⟩] ∧
      (recordPayment s tid d sid p n).ledger
        = l1 ++ updSaleFields r (r.amount_paid + p) (r.balance - p)
            (if r.balance - p = 0 then "Fully Paid" else "Installment Plan") :: l2 ∧
      (recordPayment s tid d sid p n).ledger.filter (fun x => x.sale_id = sid)
        = [updSaleFields r (r.amount_paid + p) (r.balance - p)
            (if r.balance - p = 0 then "Fully Paid" else "Installment Plan")] ∧
      SaleInv (updSaleFields r (r.amount_paid + p) (r.balance - p)
            (if r.balance - p = 0 then "Fully Paid" else "Installment Plan")) := by
  obtain ⟨l1, l2, hdec, h1, h2, hrsid⟩ := filter_sid_singleton_decomp s.ledger sid r huq
  have hs : r.status ≠ "Fully Paid" := by
    intro hFP
    have hb0 := (hinv.2.2.1).mp hFP
    linarith
  have hbal : r.total_sale_price - (r.amount_paid + p) = r.balance - p := by
    have hb := hinv.1
    linarith
  have hacc := recordPayment_accepted s tid d sid p n r huq hs hp hpb
  have hld : (recordPayment s tid d sid p n).ledger
      = l1 ++ updSaleFields r (r.amount_paid + p) (r.balance - p)
          (if r.balance - p = 0 then "Fully Paid" else "Installment Plan") :: l2 := by
    rw [hacc]
    show updateFirstSale s.ledger sid (r.amount_paid + p)
        (r.total_sale_price - (r.amount_paid + p))
        (if r.total_sale_price - (r.amount_paid + p) = 0 then "Fully Paid"
         else "Installment Plan") = _
    rw [hbal, hdec]
    exact updateFirstSale_decomp l1 l2 r sid _ _ _ h1 hrsid
  have hinv1 : SaleInv (updSaleFields r (r.amount_paid + p) (r.balance - p)
      (if r.balance - p = 0 then "Fully Paid" else "Installment Plan")) := by
    refine ⟨?_, ?_, ?_, ?_⟩
    · show r.balance - p = r.total_sale_price - (r.amount_paid + p)
      exact hbal.symm
    · show (0 : ℚ) ≤ r.balance - p
      linarith
    · show (if r.balance - p = 0 then "Fully Paid" else "Installment Plan")
          = "Fully Paid" ↔ r.balance - p = 0
      by_cases h : r.balance - p = 0 <;>
        simp [h, show ("Installment Plan" : String) ≠ "Fully Paid" by decide]
    · show (if r.balance - p = 0 then "Fully Paid" else "Installment Plan")
          = "Fully Paid" ∨
        (if r.balance - p = 0 then "Fully Paid" else "Installment Plan")
          = "Installment Plan"
      by_cases h : r.balance - p = 0 <;> simp [h]
  refine ⟨l1, l2, hdec, h1, h2, hrsid, ?_, hld, ?_, hinv1⟩
  · rw [hacc]
  · rw [hld]
    exact filter_sid_of_decomp l1 l2 _ sid h1 h2 hrsid

lemma applyPayments_cons (s : AppState) (sid : String) (p : ℚ) (ps : List ℚ) :
    applyPayments s sid (p :: ps)
      = applyPayments (recordPayment s "TXN" "DATE" sid p "") sid ps := rfl

/-- Replaying an admissible payment sequence preserves the unique matching
row and the invariant and drives its balance down by the sum paid. -/
lemma applyPayments_spec (ps : List ℚ) :
    ∀ (s : AppState) (sid : String) (r : Sale),
      s.ledger.filter (fun x => x.sale_id = sid) = [r] →
      SaleInv r → validSeq r.balance ps →
      ∃ r2 : Sale,
        (applyPayments s sid ps).ledger.filter (fun x => x.sale_id = sid) = [r2] ∧
        SaleInv r2 ∧ r2.balance = r.balance - ps.sum ∧
        r2.total_sale_price = r.total_sale_price := by
  induction ps with
  | nil =>
    intro s sid r huq hinv _
    exact ⟨r, huq, hinv, by simp, rfl⟩
  | cons p ps ih =>
    intro s sid r huq hinv hv
    simp only [validSeq] at hv
    obtain ⟨hp, hpb, hv2⟩ := hv
    obtain ⟨l1, l2, hdec, h1, h2, hrsid, htr, hld, hflt, hinv1⟩ :=
      recordPayment_step s "TXN" "DATE" sid "" p r huq hinv hp hpb
    have hv1 : validSeq (updSaleFields r (r.amount_paid + p) (r.balance - p)
        (if r.balance - p = 0 then "Fully Paid" else "Installment Plan")).balance ps := by
      show validSeq (r.balance - p) ps
      exact hv2
    obtain ⟨r2, hq2, hinv2, hbal2, htot2⟩ :=
      ih (recordPayment s "TXN" "DATE" sid p "") sid _ hflt hinv1 hv1
    refine ⟨r2, ?_, hinv2, ?_, ?_⟩
    · rw [applyPayments_cons]
      exact hq2
    · rw [hbal2]
      show r.balance - p - ps.sum = r.balance - (p :: ps).sum
      rw [List.sum_cons]
      ring
    · rw [htot2]
      rfl

/-- C1: for a sale with initial balance B, any sequence of RecordPayment
calls with amounts each positive and at most the running balance leaves
the sale's balance at B minus the sum paid, with status Fully Paid exactly
when that final balance is 0; and any attempt with amount ≤ 0 or greater
than the current balance is rejected, changing neither table. -/
theorem recordPayment_sequence (s : AppState) (sid : String) (r : Sale)
    (ps : List ℚ)
    (huq : s.ledger.filter (fun x => x.sale_id = sid) = [r])
    (hinv : SaleInv r) (hv : validSeq r.balance ps) :
    (∃ r2 : Sale,
      (applyPayments s sid ps).ledger.filter (fun x => x.sale_id = sid) = [r2] ∧
      r2.balance = r.balance - ps.sum ∧
      (r2.status = "Fully Paid" ↔ r2.balance = 0)) ∧
    (∀ (st : AppState) (tid d n : String) (q : ℚ) (r3 : Sale),
      st.ledger.filter (fun x => x.sale_id = sid) = [r3] →
      (q ≤ 0 ∨ r3.balance < q) →
      recordPayment st tid d sid q n = st) := by
  constructor
  · obtain ⟨r2, hq2, hinv2, hbal2, _⟩ := applyPayments_spec ps s sid r huq hinv hv
    exact ⟨r2, hq2, hbal2, hinv2.2.2.1⟩
  · intro st tid d n q r3 huq3 hq
    exact recordPayment_rejected st tid d sid q n r3 huq3 hq

/-- A concrete outstanding sale used by the witnesses. -/
def sale0 : Sale :=
  ⟨"S1", "C1", "Jane", "0712", "Manager", "Malaa", 500, 250, 250, "2025-01-01",
   "Installment Plan", ""⟩

/-- A concrete application state with the one outstanding sale `sale0`. -/
def state0 : AppState := ⟨[], [sale0]⟩

lemma sale0_inv : SaleInv sale0 :=
  ⟨by norm_num [sale0], by norm_num [sale0],
   ⟨fun h => absurd h (by decide), fun h => absurd h (by norm_num [sale0])⟩,
   Or.inr rfl⟩

/-- C1 witness: paying 100 then 150 against a balance of 250 settles the
sale exactly. -/
theorem recordPayment_sequence_witness :
    ∃ r2 : Sale,
      (applyPayments state0 "S1" [100, 150]).ledger.filter
          (fun x => x.sale_id = "S1") = [r2] ∧
      r2.balance = sale0.balance - ([100, 150] : List ℚ).sum ∧
      (r2.status = "Fully Paid" ↔ r2.balance = 0) :=
  (recordPayment_sequence state0 "S1" sale0 [100, 150] (by decide) sale0_inv
    (by simp only [validSeq]; norm_num [sale0])).1

lemma SaleInv_fresh (sid cid cn ph ag loc sd nt : String) (tp ip : ℚ)
    (hle : ip ≤ tp) :
    SaleInv ⟨sid, cid, cn, ph, ag, loc, tp, ip, tp - ip, sd,
      (if tp - ip = 0 then "Fully Paid" else "Installment Plan"), nt⟩ := by
  refine ⟨rfl, sub_nonneg.mpr hle, ?_, ?_⟩
  · show (if tp - ip = 0 then "Fully Paid" else "Installment Plan")
        = "Fully Paid" ↔ tp - ip = 0
    by_cases h : tp - ip = 0 <;>
      simp [h, show ("Installment Plan" : String) ≠ "Fully Paid" by decide]
  · show (if tp - ip = 0 then "Fully Paid" else "Installment Plan") = "Fully Paid"
      ∨ (if tp - ip = 0 then "Fully Paid" else "Installment Plan")
        = "Installment Plan"
    by_cases h : tp - ip = 0 <;> simp [h]

lemma installment_ne_fully_paid : ("Installment Plan" : String) ≠ "Fully Paid" := by
  decide

lemma SaleInv_importRow (sid cid cn ph ag loc osd : String) (tp paid : ℚ)
    (nt : String) (hlt : 0 < tp - paid) :
    SaleInv ⟨sid, cid, cn, ph, ag, loc, tp, paid, tp - paid, osd,
      "Installment Plan", nt⟩ :=
  ⟨rfl, le_of_lt hlt,
   ⟨fun h => absurd h installment_ne_fully_paid, fun h => absurd h (ne_of_gt hlt)⟩,
   Or.inr rfl⟩

lemma SaleInv_snoc (l : List Sale) (row : Sale)
    (h : ∀ x ∈ l, SaleInv x) (hrow : SaleInv row) :
    ∀ x ∈ l ++ [row], SaleInv x := by
  intro x hx
  rcases List.mem_append.mp hx with hx1 | hx2
  · exact h x hx1
  · rw [List.mem_singleton] at hx2
    rw [hx2]
    exact hrow

/-- C2: after each of the three mutating operations every Sale row
satisfies balance = total_sale_price - amount_paid, balance ≥ 0, and
status Fully Paid exactly when balance = 0; creation operations only
append rows, and the only in-place change RecordPayment makes is to the
single Installment Plan row it targets, whose new status is Fully Paid
exactly when the payment drives the balance to 0 — so the only status
transition is Installment Plan to Fully Paid, with no transition back. -/
theorem ledger_invariants_and_transitions :
    (∀ (s : AppState) (sid cid tid sd cn ph ag loc : String) (tp ip : ℚ)
        (nt : String), LedgerInv s →
      LedgerInv (createSale s sid cid tid sd cn ph ag loc tp ip nt) ∧
      ∃ tail, (createSale s sid cid tid sd cn ph ag loc tp ip nt).ledger
        = s.ledger ++ tail) ∧
    (∀ (s : AppState) (sid cid osd cn ph ag loc : String) (tp paid : ℚ)
        (nt : String), LedgerInv s →
      LedgerInv (historicalSaleImport s sid cid osd cn ph ag loc tp paid nt) ∧
      ∃ tail, (historicalSaleImport s sid cid osd cn ph ag loc tp paid nt).ledger
        = s.ledger ++ tail) ∧
    (∀ (s : AppState) (tid d sid : String) (p : ℚ) (n : String),
      LedgerInv s → (s.ledger.filter (fun x => x.sale_id = sid)).length ≤ 1 →
      LedgerInv (recordPayment s tid d sid p n) ∧
      (recordPayment s tid d sid p n = s ∨
       ∃ l1 l2 r, s.ledger = l1 ++ r :: l2 ∧
         r.status = "Installment Plan" ∧ 0 < p ∧ p ≤ r.balance ∧
         (recordPayment s tid d sid p n).ledger
           = l1 ++ updSaleFields r (r.amount_paid + p) (r.balance - p)
               (if r.balance - p = 0 then "Fully Paid" else "Installment Plan")
             :: l2)) := by
  refine ⟨?_, ?_, ?_⟩
  · intro s sid cid tid sd cn ph ag loc tp ip nt hinv
    simp only [createSale]
    by_cases h1 : cn = "" ∨ ph = ""
    · rw [if_pos h1]
      exact ⟨hinv, [], by simp⟩
    · rw [if_neg h1]
      by_cases h2 : ip > tp
      · rw [if_pos h2]
        exact ⟨hinv, [], by simp⟩
      · rw [if_neg h2]
        by_cases hip : ip > 0
        · rw [if_pos hip]
          exact ⟨SaleInv_snoc s.ledger _ hinv (SaleInv_fresh sid cid cn ph ag loc
            sd nt tp ip (not_lt.mp h2)), _, rfl⟩
        · rw [if_neg hip]
          exact ⟨SaleInv_snoc s.ledger _ hinv (SaleInv_fresh sid cid cn ph ag loc
            sd nt tp ip (not_lt.mp h2)), _, rfl⟩
  · intro s sid cid osd cn ph ag loc tp paid nt hinv
    simp only [historicalSaleImport]
    by_cases h1 : cn = "" ∨ ph = ""
    · rw [if_pos h1]
      exact ⟨hinv, [], by simp⟩
    · rw [if_neg h1]
      by_cases h2 : paid > tp
      · rw [if_pos h2]
        exact ⟨hinv, [], by simp⟩
      · rw [if_neg h2]
        by_cases h3 : tp - paid ≤ 0
        · rw [if_pos h3]
          exact ⟨hinv, [], by simp⟩
        · rw [if_neg h3]
          exact ⟨SaleInv_snoc s.ledger _ hinv (SaleInv_importRow sid cid cn ph ag
            loc osd tp paid _ (by linarith)), _, rfl⟩
  · intro s tid d sid p n hinv hlen
    cases hL : s.ledger.filter (fun x => x.sale_id = sid) with
    | nil =>
      rw [recordPayment_no_match s tid d sid n p hL]
      exact ⟨hinv, Or.inl rfl⟩
    | cons r rest =>
      have hrest : rest = [] := by
        rw [hL] at hlen
        simp only [List.length_cons] at hlen
        have h0 : rest.length = 0 := by omega
        exact List.eq_nil_of_length_eq_zero h0
      subst hrest
      have huq : s.ledger.filter (fun x => x.sale_id = sid) = [r] := hL
      have hrmem : r ∈ s.ledger := by
        have hm : r ∈ s.ledger.filter (fun x => x.sale_id = sid) := by
          rw [huq]
          simp
        exact (List.mem_filter.mp hm).1
      have hrinv : SaleInv r := hinv r hrmem
      rcases hrinv.2.2.2 with hFP | hIP
      · rw [recordPayment_of_fullyPaid s tid d sid n p r huq hFP]
        exact ⟨hinv, Or.inl rfl⟩
      · by_cases hg : p ≤ 0 ∨ r.balance < p
        · rw [recordPayment_rejected s tid d sid p n r huq hg]
          exact ⟨hinv, Or.inl rfl⟩
        · push_neg at hg
          obtain ⟨hp, hpb⟩ := hg
          obtain ⟨l1, l2, hdec, h1, h2, hrsid, htr, hld, hflt, hinv1⟩ :=
            recordPayment_step s tid d sid n p r huq hrinv hp hpb
          constructor
          · intro x hx
            rw [hld] at hx
            rcases List.mem_append.mp hx with hx1 | hx2
            · exact hinv x (by rw [hdec]; exact List.mem_append.mpr (Or.inl hx1))
            · rcases List.mem_cons.mp hx2 with rfl | hx3
              · exact hinv1
              · exact hinv x (by
                  rw [hdec]
                  exact List.mem_append.mpr (Or.inr (List.mem_cons_of_mem r hx3)))
          · exact Or.inr ⟨l1, l2, r, hdec, hIP, hp, hpb, hld⟩

lemma state0_inv : LedgerInv state0 := by
  intro r hr
  simp only [state0] at hr
  rw [List.mem_singleton] at hr
  rw [hr]
  exact sale0_inv

/-- C2 witness: the invariant holds after a concrete payment and after a
concrete sale creation. -/
theorem ledger_invariants_and_transitions_witness :
    LedgerInv (recordPayment state0 "T1" "D1" "S1" 100 "") ∧
    LedgerInv (createSale state0 "SALE-2" "C2" "T2" "d" "Ann" "0700" "Manager"
      "Joska" 100 40 "") :=
  ⟨(ledger_invariants_and_transitions.2.2 state0 "T1" "D1" "S1" 100 ""
      state0_inv (by decide)).1,
   (ledger_invariants_and_transitions.1 state0 "SALE-2" "C2" "T2" "d" "Ann" "0700"
      "Manager" "Joska" 100 40 "" state0_inv).1⟩

/-- C6: an accepted RecordPayment appends exactly one Installment
Transaction copying agent, location, client id and phone from the sale,
and updates exactly one Sale row — the first matching row — in its
Amount_Paid, Balance and Status fields; two calls with the same amount
yield two appended Transactions and a balance reduced by 2 × amount. -/
theorem recordPayment_effect_shape (s : AppState) (tid tid2 d d2 n n2 sid : String)
    (p : ℚ) (r : Sale)
    (huq : s.ledger.filter (fun x => x.sale_id = sid) = [r])
    (hinv : SaleInv r) (hp : 0 < p) (h2p : p + p ≤ r.balance) :
    ((recordPayment s tid d sid p n).transactions
       = s.transactions ++ [⟨tid, d, r.agent, r.location, r.client_id, p,
           "Installment", r.phone, r.sale_id, n⟩]) ∧
    (∃ l1 l2,
      s.ledger = l1 ++ r :: l2 ∧
      (recordPayment s tid d sid p n).ledger
        = l1 ++ updSaleFields r (r.amount_paid + p) (r.balance - p)
            (if r.balance - p = 0 then "Fully Paid" else "Installment Plan")
          :: l2) ∧
    ((recordPayment (recordPayment s tid d sid p n) tid2 d2 sid p n2).transactions
       = s.transactions
         ++ [⟨tid, d, r.agent, r.location, r.client_id, p, "Installment",
              r.phone, r.sale_id, n⟩,
             ⟨tid2, d2, r.agent, r.location, r.client_id, p, "Installment",
              r.phone, r.sale_id, n2⟩]) ∧
    (∃ r2 : Sale,
      (recordPayment (recordPayment s tid d sid p n) tid2 d2 sid p
          n2).ledger.filter (fun x => x.sale_id = sid) = [r2] ∧
      r2.balance = r.balance - 2 * p) := by
  have hpb : p ≤ r.balance := by linarith
  obtain ⟨l1, l2, hdec, h1, h2, hrsid, htr, hld, hflt, hinv1⟩ :=
    recordPayment_step s tid d sid n p r huq hinv hp hpb
  have hpb1 : p ≤ (updSaleFields r (r.amount_paid + p) (r.balance - p)
      (if r.balance - p = 0 then "Fully Paid" else "Installment Plan")).balance := by
    show p ≤ r.balance - p
    linarith
  obtain ⟨m1, m2, hdec2, g1, g2, hrsid2, htr2, hld2, hflt2, hinv2⟩ :=
    recordPayment_step (recordPayment s tid d sid p n) tid2 d2 sid n2 p _
      hflt hinv1 hp hpb1
  refine ⟨htr, ⟨l1, l2, hdec, hld⟩, ?_, ?_⟩
  · rw [htr2, htr, List.append_assoc]
    rfl
  · refine ⟨_, hflt2, ?_⟩
    show r.balance - p - p = r.balance - 2 * p
    ring

/-- C6 witness: two concrete 100-unit payments against `sale0`. -/
theorem recordPayment_effect_shape_witness :
    ∃ r2 : Sale,
      (recordPayment (recordPayment state0 "T1" "D1" "S1" 100 "") "T2" "D2" "S1"
          100 "").ledger.filter (fun x => x.sale_id = "S1") = [r2] ∧
      r2.balance = sale0.balance - 2 * 100 :=
  (recordPayment_effect_shape state0 "T1" "T2" "D1" "D2" "" "" "S1" 100 sale0
    (by decide) sale0_inv (by norm_num) (by norm_num [sale0])).2.2.2

lemma recordPayment_first_match (st : AppState) (ptid pd pn sid : String) (p : ℚ)
    (l1 l2 : List Sale) (r : Sale)
    (hledg : st.ledger = l1 ++ r :: l2)
    (h3 : ∀ x ∈ l1, x.sale_id ≠ sid) (h4 : r.sale_id = sid) :
    ∃ r1 : Sale, (recordPayment st ptid pd sid p pn).ledger = l1 ++ r1 :: l2 ∧
      (r1 = r ∨ ∃ A Bv S, r1 = updSaleFields r A Bv S) := by
  unfold recordPayment
  cases hfind : (st.ledger.filter (fun x => x.status ≠ "Fully Paid")).find?
      (fun x => x.sale_id = sid) with
  | none => exact ⟨r, hledg, Or.inl rfl⟩
  | some sel =>
    by_cases hg : p ≤ 0 ∨ sel.balance < p
    · simp only [if_pos hg]
      exact ⟨r, hledg, Or.inl rfl⟩
    · refine ⟨updSaleFields r (sel.amount_paid + p)
        (sel.total_sale_price - (sel.amount_paid + p))
        (if sel.total_sale_price - (sel.amount_paid + p) = 0 then "Fully Paid"
         else "Installment Plan"), ?_, Or.inr ⟨_, _, _, rfl⟩⟩
      simp only [if_neg hg]
      show updateFirstSale st.ledger sid (sel.amount_paid + p)
          (sel.total_sale_price - (sel.amount_paid + p))
          (if sel.total_sale_price - (sel.amount_paid + p) = 0 then "Fully Paid"
           else "Installment Plan") = _
      rw [hledg]
      exact updateFirstSale_decomp l1 l2 r sid _ _ _ h3 h4

/-- C9: every identifier scan is first-match-only — DeleteTransaction
removes only the first Transactions row whose Transaction_ID matches,
DeleteSale removes only the first Sales_Ledger row whose Sale_ID matches,
and RecordPayment rewrites only the first Sales_Ledger row whose Sale_ID
matches; all later rows, including ones carrying a duplicate identifier,
are left unchanged. -/
theorem first_match_only_scans
    (txs1 txs2 txs : List Transaction) (t : Transaction) (tid : String)
    (ldg l1 l2 : List Sale) (r : Sale) (sid ptid pd pn : String) (p : ℚ)
    (h1 : ∀ x ∈ txs1, x.transaction_id ≠ tid) (h2 : t.transaction_id = tid)
    (h3 : ∀ x ∈ l1, x.sale_id ≠ sid) (h4 : r.sale_id = sid) :
    ((deleteTransaction ⟨txs1 ++ t :: txs2, ldg⟩ tid).transactions
       = txs1 ++ txs2) ∧
    ((deleteSale ⟨txs, l1 ++ r :: l2⟩ sid).ledger = l1 ++ l2) ∧
    (∃ r1 : Sale,
      (recordPayment ⟨txs, l1 ++ r :: l2⟩ ptid pd sid p pn).ledger
        = l1 ++ r1 :: l2 ∧
      (r1 = r ∨ ∃ A Bv S, r1 = updSaleFields r A Bv S)) :=
  ⟨deleteFirstTransaction_decomp txs1 txs2 t tid h1 h2,
   deleteFirstSale_decomp l1 l2 r sid h3 h4,
   recordPayment_first_match ⟨txs, l1 ++ r :: l2⟩ ptid pd pn sid p l1 l2 r rfl h3 h4⟩

/-- A second ledger row carrying the same (duplicate) Sale_ID as `sale0`,
used to witness first-match-only behaviour. -/
def saleDup : Sale :=
  ⟨"S1", "C7", "Kim", "0799", "Agent 1", "Kamulu", 900, 100, 800, "2025-02-02",
   "Installment Plan", ""⟩

/-- A concrete transaction used by the first-match witnesses. -/
def txn0 : Transaction :=
  ⟨"T1", "2025-01-05", "Manager", "Malaa", "C1", 100, "Installment", "0712",
   "S1", ""⟩

/-- C9 witness: with duplicate identifiers in both tables, each scan
removes or rewrites only the first matching row and leaves the duplicate
untouched. -/
theorem first_match_only_scans_witness :
    ((deleteTransaction ⟨[] ++ txn0 :: [txn0], []⟩ "T1").transactions
       = [] ++ [txn0]) ∧
    ((deleteSale ⟨[], [] ++ sale0 :: [saleDup]⟩ "S1").ledger = [] ++ [saleDup]) ∧
    (∃ r1 : Sale,
      (recordPayment ⟨[], [] ++ sale0 :: [saleDup]⟩ "PT" "PD" "S1" 100 "").ledger
        = [] ++ r1 :: [saleDup] ∧
      (r1 = sale0 ∨ ∃ A Bv S, r1 = updSaleFields sale0 A Bv S)) :=
  first_match_only_scans [] [txn0] [] txn0 "T1" [] [] [saleDup] sale0 "S1" "PT"
    "PD" "PN" 100 (by simp) rfl (by simp) rfl

end RealtorOS
